import Mathlib

/-!
Verification of the qimgshrink conversion engine.

This file is a shallow embedding of the repository qnap-img-shrink:
the conversion statistics accumulator (src/qimgshrink/converter.py,
class ConversionStats), the file-metadata snapshot
(src/qimgshrink/files.py, class ImageFileInfo), the two conversion
engines (src/qimgshrink/converter.py class Converter and
src/qimgshrink/converter2.py class Converter2) and the engine factory
(src/qimgshrink/converter_factory.py, create_converter).

Python machine integers are modelled by Nat (all sizes and counters in
the source are non-negative) and Int where subtraction appears; the
single Python float expression (compression ratio) is modelled by exact
rationals.  Fallible operations return Except.  The operating system
(file access, image decoding, the external ImageMagick processes,
rename, chmod, chown, name-service lookups) is modelled by explicit
environment records whose fields say how each call would answer, and
the on-disk state of the one file a convert call touches is threaded as
an explicit World value.
-/

/-- Statistics accumulator, from converter.py class ConversionStats.
The source stores the four counters behind string-keyed BData storage
initialised to 0; here they are plain fields. -/
structure ConversionStats where
  processed_files : Nat
  skipped_files : Nat
  size_before : Nat
  size_after : Nat
deriving DecidableEq, Repr

/-- ConversionStats.__init__: all four counters start at zero. -/
def ConversionStats.init : ConversionStats := ⟨0, 0, 0, 0⟩

/-- converter.py ConversionStats.add_processed: increment the processed
count and accumulate both byte totals. -/
def ConversionStats.add_processed (s : ConversionStats)
    (size_before size_after : Nat) : ConversionStats :=
  { s with
    processed_files := s.processed_files + 1
    size_before := s.size_before + size_before
    size_after := s.size_after + size_after }

/-- converter.py ConversionStats.add_skipped: increment the skipped count. -/
def ConversionStats.add_skipped (s : ConversionStats) : ConversionStats :=
  { s with skipped_files := s.skipped_files + 1 }

/-- converter.py ConversionStats.total_files. -/
def ConversionStats.total_files (s : ConversionStats) : Nat :=
  s.processed_files + s.skipped_files

/-- converter.py ConversionStats.saved_bytes: size_before - size_after,
on Python ints, so the result may be negative: modelled in Int. -/
def ConversionStats.saved_bytes (s : ConversionStats) : Int :=
  (s.size_before : Int) - (s.size_after : Int)

/-- converter.py ConversionStats.compression_ratio: 0.0 when
size_before is 0, else (1 - size_after / size_before) * 100.  The
Python float arithmetic is modelled by exact rationals. -/
def ConversionStats.compression_ratio (s : ConversionStats) : ℚ :=
  if s.size_before = 0 then 0
  else (1 - (s.size_after : ℚ) / (s.size_before : ℚ)) * 100

/-- File-metadata snapshot, from files.py class ImageFileInfo.  The
class stores exactly these five values (path, permission bits, owner
name, group name, size); it has no uid or gid attribute. -/
structure ImageFileInfo where
  path : String
  permissions : Nat
  owner : String
  group : String
  size : Nat
deriving DecidableEq, Repr

/-- Kinds of Python exceptions the modelled code can raise. -/
inductive ErrKind where
  | permissionError
  | osError
  | runtimeError
  | attributeError
  | importError
  | typeError
deriving DecidableEq, Repr

/-- A Python exception: its class and its message. -/
structure PyErr where
  kind : ErrKind
  msg : String
deriving DecidableEq, Repr

/-- A Python attribute value of the two types ImageFileInfo carries. -/
inductive PyVal where
  | int (n : Nat)
  | str (s : String)
deriving DecidableEq, Repr

/-- Python attribute access on an ImageFileInfo instance.  files.py
defines exactly the properties path, permissions, owner, group and
size; reading any other attribute (in particular uid or gid, which
converter2.py line 289 reads) raises AttributeError. -/
def ImageFileInfo.getattr (info : ImageFileInfo) (name : String) :
    Except PyErr PyVal :=
  if name = "path" then .ok (.str info.path)
  else if name = "permissions" then .ok (.int info.permissions)
  else if name = "owner" then .ok (.str info.owner)
  else if name = "group" then .ok (.str info.group)
  else if name = "size" then .ok (.int info.size)
  else .error ⟨.attributeError,
    "ImageFileInfo object has no attribute " ++ name⟩

/-- Dimension computation from converter.py lines 292-298.  Python
int(h * max_size / w) truncates the non-negative quotient, which for
the magnitudes of image dimensions equals Nat floor division. -/
def newDimensions (original_width original_height max_size : Nat) :
    Nat × Nat :=
  if original_width > original_height then
    (max_size, original_height * max_size / original_width)
  else
    (original_width * max_size / original_height, max_size)

/-- Round a / b to the nearest integer (ties away from zero). -/
def roundNearest (a b : Nat) : Nat := (a * 2 + b) / (b * 2)

/-- Modelled from the spec: the dimension rule as section 4.1 words it,
with the scaled side rounded to the NEAREST integer, to be compared
with newDimensions, which the source computes with truncation. -/
def newDimensionsSpec (original_width original_height max_size : Nat) :
    Nat × Nat :=
  if original_width > original_height then
    (max_size, roundNearest (original_height * max_size) original_width)
  else
    (roundNearest (original_width * max_size) original_height, max_size)

/-- Floor-division cast bounds: the Nat quotient is within one of the
exact rational quotient. -/
theorem natCast_div_bounds (a b : Nat) (hb : 0 < b) :
    (a : ℚ) / (b : ℚ) - 1 < ((a / b : Nat) : ℚ) ∧
    ((a / b : Nat) : ℚ) ≤ (a : ℚ) / (b : ℚ) := by
  have hbq : (0 : ℚ) < (b : ℚ) := by exact_mod_cast hb
  constructor
  · have key : (a : ℚ) = (b : ℚ) * ((a / b : Nat) : ℚ) + ((a % b : Nat) : ℚ) := by
      exact_mod_cast (Nat.div_add_mod a b).symm
    have hm : ((a % b : Nat) : ℚ) < (b : ℚ) := by
      exact_mod_cast Nat.mod_lt a hb
    have h5 : (a : ℚ) / (b : ℚ) < ((a / b : Nat) : ℚ) + 1 := by
      rw [div_lt_iff₀ hbq]
      calc (a : ℚ) = (b : ℚ) * ((a / b : Nat) : ℚ) + ((a % b : Nat) : ℚ) := key
        _ < (b : ℚ) * ((a / b : Nat) : ℚ) + (b : ℚ) := by linarith
        _ = (((a / b : Nat) : ℚ) + 1) * (b : ℚ) := by ring
    linarith
  · exact Nat.cast_div_le

/-- Properties of the dimension computation, amended to the code: the
scaled side is truncated (floor), never rounded up.  The longest output
side equals max_size, neither side grows, and the truncated side is
within one pixel of the exact scaled value. -/
def ResizeDimOk (w h m : Nat) : Prop :=
  max (newDimensions w h m).1 (newDimensions w h m).2 = m ∧
  (newDimensions w h m).1 ≤ w ∧
  (newDimensions w h m).2 ≤ h ∧
  (w > h →
    (newDimensions w h m).1 = m ∧
    (newDimensions w h m).2 = h * m / w ∧
    ((h * m : ℕ) : ℚ) / (w : ℚ) - 1 < ((newDimensions w h m).2 : ℚ) ∧
    ((newDimensions w h m).2 : ℚ) ≤ ((h * m : ℕ) : ℚ) / (w : ℚ)) ∧
  (¬ w > h →
    (newDimensions w h m).2 = m ∧
    (newDimensions w h m).1 = w * m / h ∧
    ((w * m : ℕ) : ℚ) / (h : ℚ) - 1 < ((newDimensions w h m).1 : ℚ) ∧
    ((newDimensions w h m).1 : ℚ) ≤ ((w * m : ℕ) : ℚ) / (h : ℚ))

/-- Decoded image metadata: what PIL Image.open exposes of an opened
file (format string and pixel size), converter.py lines 282-284. -/
structure ImageMeta where
  format : String
  width : Nat
  height : Nat
deriving DecidableEq, Repr

/-- The bytes an encode step produced: an abstract content identifier
and the byte size of the encoded file. -/
structure EncodedFile where
  content : Nat
  size : Nat
deriving DecidableEq, Repr

/-- The format-specific save call of converter.py lines 310-325:
JPEG-family saves with the configured quality and optimize, PNG saves
with compress level 9, optimize and interlace, anything else is saved
with no specific compression. -/
inductive SaveSpec where
  | jpeg (quality : Nat)
  | png
  | passthrough (format : String)
deriving DecidableEq, Repr

/-- Dispatch of converter.py lines 311-325 on the original format. -/
def pillowSaveSpec (original_format : String) (quality : Nat) : SaveSpec :=
  if original_format = "JPEG" ∨ original_format = "JPG" then .jpeg quality
  else if original_format = "PNG" then .png
  else .passthrough original_format

/-- Observable actions a convert call performs, in order, used to state
that the skip path writes nothing and that permission failures happen
before any work. -/
inductive Event where
  | dimensionProbe
  | tmpCreate
  | encodePillow (dims : Nat × Nat) (spec : SaveSpec)
  | runTool (cmd : List String)
  | replace
  | chmodRestore
  | chownRestore
  | tmpUnlink
deriving DecidableEq, Repr

/-- On-disk state of the one target file of a convert call, plus the
temporary file of that call (none when no temporary file exists). -/
structure World where
  origContent : Nat
  origSize : Nat
  origPerms : Nat
  origUid : Nat
  origGid : Nat
  tmp : Option Nat
deriving DecidableEq, Repr

deriving instance DecidableEq for Except

/-- Outcome of one convert call: the returned value or raised
exception, the statistics after the call, the final file state, and
the trace of performed actions. -/
structure ConvOutcome where
  result : Except PyErr Bool
  stats : ConversionStats
  world : World
  events : List Event
deriving DecidableEq, Repr

/-- Exception rewrite of converter.py lines 364-370: any exception
escaping the try block is re-raised with the same class and a message
naming the file. -/
def pyWrapPillow (path : String) : Except PyErr Bool → Except PyErr Bool
  | .error e => .error ⟨e.kind, "Failed to convert image " ++ path ++ ": " ++ e.msg⟩
  | .ok b => .ok b

/-- Exception rewrite of converter2.py lines 317-325: PermissionError
and RuntimeError are re-raised unchanged, anything else is re-raised
with the same class and a message naming the file. -/
def pyWrapMagick (path : String) : Except PyErr Bool → Except PyErr Bool
  | .error e =>
      if e.kind = ErrKind.permissionError ∨ e.kind = ErrKind.runtimeError then .error e
      else .error ⟨e.kind, "Failed to convert image " ++ path ++ ": " ++ e.msg⟩
  | .ok b => .ok b

/-- How the operating system answers each call the Pillow engine makes:
os.access for read and write, PIL decoding of the target (none models
an Image.open failure), the encode into the temporary file (none
models a save failure), shutil.move, os.chmod, the pwd and grp name
lookups (none models KeyError) and os.chown permission. -/
structure PillowEnv where
  canRead : Bool
  canWrite : Bool
  decode : Option ImageMeta
  encode : Option EncodedFile
  moveOk : Bool
  chmodOk : Bool
  pwByName : String → Option Nat
  grByName : String → Option Nat
  chownOk : Bool

/-- Pillow engine configuration and statistics, converter.py class
Converter (string-keyed BData storage modelled as plain fields). -/
structure Converter where
  max_size : Nat
  quality : Nat
  test_mode : Bool
  stats : ConversionStats
deriving DecidableEq, Repr

/-- Ownership restoration of converter.py lines 340-349: look up the
stored owner and group names; a KeyError from either lookup or a
PermissionError from os.chown is swallowed and the file keeps its
current ownership. -/
def pillowChownRestore (env : PillowEnv) (info : ImageFileInfo)
    (w : World) : World :=
  match env.pwByName info.owner, env.grByName info.group with
  | some uid, some gid =>
      if env.chownOk then { w with origUid := uid, origGid := gid } else w
  | _, _ => w

/-- Converter.convert, converter.py lines 245-370: read-access check,
write-access check, open and probe, skip if the longest side is within
max_size, else resize, encode to a temporary file, and either replace
the original restoring permissions and best-effort ownership (normal
mode) or delete the temporary file (test mode); any failure inside the
inner try deletes the temporary file if it exists and re-raises; the
outer handler re-raises with the same exception class. -/
def Converter.convert (c : Converter) (info : ImageFileInfo)
    (env : PillowEnv) (w : World) : ConvOutcome :=
  if ¬ env.canRead then
    ⟨.error ⟨.permissionError, "No read access to file: " ++ info.path⟩,
      c.stats, w, []⟩
  else if ¬ env.canWrite then
    ⟨.error ⟨.permissionError, "No write access to file: " ++ info.path⟩,
      c.stats, w, []⟩
  else
    let body : ConvOutcome :=
      match env.decode with
      | none =>
          ⟨.error ⟨.osError, "cannot identify image file"⟩, c.stats, w,
            [.dimensionProbe]⟩
      | some im =>
          if max im.width im.height ≤ c.max_size then
            ⟨.ok false, c.stats.add_skipped, w, [.dimensionProbe]⟩
          else
            let dims := newDimensions im.width im.height c.max_size
            let spec := pillowSaveSpec im.format c.quality
            let w1 := { w with tmp := some 0 }
            match env.encode with
            | none =>
                ⟨.error ⟨.osError, "save failed"⟩, c.stats,
                  { w1 with tmp := none },
                  [.dimensionProbe, .tmpCreate, .encodePillow dims spec,
                    .tmpUnlink]⟩
            | some enc =>
                let w2 := { w1 with tmp := some enc.content }
                let size_before := info.size
                let size_after := enc.size
                if ¬ c.test_mode then
                  if ¬ env.moveOk then
                    ⟨.error ⟨.osError, "move failed"⟩, c.stats,
                      { w2 with tmp := none },
                      [.dimensionProbe, .tmpCreate, .encodePillow dims spec,
                        .replace, .tmpUnlink]⟩
                  else
                    let w3 := { w2 with
                                origContent := enc.content
                                origSize := enc.size
                                tmp := none }
                    if ¬ env.chmodOk then
                      ⟨.error ⟨.osError, "chmod failed"⟩, c.stats, w3,
                        [.dimensionProbe, .tmpCreate, .encodePillow dims spec,
                          .replace, .chmodRestore]⟩
                    else
                      let w4 := { w3 with origPerms := info.permissions }
                      ⟨.ok true,
                        c.stats.add_processed size_before size_after,
                        pillowChownRestore env info w4,
                        [.dimensionProbe, .tmpCreate, .encodePillow dims spec,
                          .replace, .chmodRestore, .chownRestore]⟩
                else
                  ⟨.ok true, c.stats.add_processed size_before size_after,
                    { w2 with tmp := none },
                    [.dimensionProbe, .tmpCreate, .encodePillow dims spec,
                      .tmpUnlink]⟩
    { body with result := pyWrapPillow info.path body.result }

/-- How the operating system answers each call the ImageMagick engine
makes: os.access for read and write, the identify subprocess (none
models a failed probe), the convert subprocess (none models a non-zero
exit, some gives the encoded temporary file), shutil.move, os.chmod
and os.chown permission. -/
structure MagickEnv where
  canRead : Bool
  canWrite : Bool
  identify : Option (Nat × Nat)
  runConvert : Option EncodedFile
  moveOk : Bool
  chmodOk : Bool
  chownOk : Bool
deriving Repr

/-- ImageMagick engine configuration and statistics, converter2.py
class Converter2 (construction-time availability probing is modelled
in the factory below). -/
structure Converter2 where
  max_size : Nat
  quality : Nat
  test_mode : Bool
  stats : ConversionStats
deriving DecidableEq, Repr

/-- Last path component, for modelling pathlib suffix extraction. -/
def pathName (p : String) : String := (p.splitOn "/").getLastD ""

/-- Models pathlib Path.suffix: the extension of the last path
component including the dot, empty for names without a dot and for
dot-files such as .bashrc. -/
def pathSuffix (p : String) : String :=
  match (pathName p).splitOn "." with
  | [] => ""
  | [_] => ""
  | first :: rest =>
      if first = "" ∧ rest.length = 1 then ""
      else "." ++ rest.getLastD ""

/-- converter2.py line 234: file_path.suffix.lower().lstrip of the
dot. -/
def magickFormat (p : String) : String :=
  ((pathSuffix p).toLower).dropWhile (fun ch => ch = '.')

/-- The argument list converter2.py lines 245-265 builds for the
convert subprocess: resize bounded to max_size with the only-shrink
flag, then quality for JPEG or maximum-compression interlaced options
for PNG, then the output path. -/
def magickConvertCmd (max_size quality : Nat) (path : String)
    (original_format : String) (tmp_path : String) : List String :=
  let base := ["convert", path, "-resize",
    toString max_size ++ "x" ++ toString max_size ++ ">"]
  let withFormat :=
    if original_format = "jpg" ∨ original_format = "jpeg" then
      base ++ ["-quality", toString quality]
    else if original_format = "png" then
      base ++ ["-quality", "100", "-define", "png:compression-level=9",
        "-interlace", "PNG"]
    else base
  withFormat ++ [tmp_path]

/-- Ownership restoration of converter2.py lines 288-292: the code
reads image_info.uid and image_info.gid inside a try whose only
handler catches PermissionError.  ImageFileInfo has no such
attributes, so the attribute read raises AttributeError, which the
handler does not catch. -/
def magickChownRestore (env : MagickEnv) (info : ImageFileInfo)
    (w : World) : Except PyErr World :=
  let attempt : Except PyErr World := do
    let uidVal ← info.getattr "uid"
    let gidVal ← info.getattr "gid"
    match uidVal, gidVal with
    | .int uid, .int gid =>
        if env.chownOk then pure { w with origUid := uid, origGid := gid }
        else .error ⟨.permissionError, "chown not permitted"⟩
    | _, _ => .error ⟨.typeError, "an integer is required"⟩
  match attempt with
  | .error e => if e.kind = ErrKind.permissionError then .ok w else .error e
  | .ok w5 => .ok w5

/-- Converter2.convert, converter2.py lines 188-325: read-access
check, write-access check, dimension probe through identify, skip if
within max_size, else run the convert subprocess into a temporary
file co-located with the target, and either replace the original
restoring permissions and ownership (normal mode) or delete the
temporary file (test mode); a subprocess failure deletes the
temporary file and raises RuntimeError, any other failure deletes the
temporary file if it exists and re-raises; the outer handler
re-raises PermissionError and RuntimeError unchanged and wraps the
rest kind-preserving. -/
def Converter2.convert (c : Converter2) (info : ImageFileInfo)
    (env : MagickEnv) (w : World) : ConvOutcome :=
  if ¬ env.canRead then
    ⟨.error ⟨.permissionError, "No read access to file: " ++ info.path⟩,
      c.stats, w, []⟩
  else if ¬ env.canWrite then
    ⟨.error ⟨.permissionError, "No write access to file: " ++ info.path⟩,
      c.stats, w, []⟩
  else
    let body : ConvOutcome :=
      match env.identify with
      | none =>
          ⟨.error ⟨.runtimeError, "Failed to get image dimensions"⟩,
            c.stats, w, [.dimensionProbe]⟩
      | some (width, height) =>
          if max width height ≤ c.max_size then
            ⟨.ok false, c.stats.add_skipped, w, [.dimensionProbe]⟩
          else
            let original_format := magickFormat info.path
            let cmd := magickConvertCmd c.max_size c.quality info.path
              original_format "tmpfile"
            let w1 := { w with tmp := some 0 }
            match env.runConvert with
            | none =>
                ⟨.error ⟨.runtimeError, "ImageMagick convert failed"⟩,
                  c.stats, { w1 with tmp := none },
                  [.dimensionProbe, .tmpCreate, .runTool cmd, .tmpUnlink]⟩
            | some enc =>
                let w2 := { w1 with tmp := some enc.content }
                let size_before := info.size
                let size_after := enc.size
                if ¬ c.test_mode then
                  if ¬ env.moveOk then
                    ⟨.error ⟨.osError, "move failed"⟩, c.stats,
                      { w2 with tmp := none },
                      [.dimensionProbe, .tmpCreate, .runTool cmd,
                        .replace, .tmpUnlink]⟩
                  else
                    let w3 := { w2 with
                                origContent := enc.content
                                origSize := enc.size
                                tmp := none }
                    if ¬ env.chmodOk then
                      ⟨.error ⟨.osError, "chmod failed"⟩, c.stats, w3,
                        [.dimensionProbe, .tmpCreate, .runTool cmd,
                          .replace, .chmodRestore]⟩
                    else
                      let w4 := { w3 with origPerms := info.permissions }
                      match magickChownRestore env info w4 with
                      | .ok w5 =>
                          ⟨.ok true,
                            c.stats.add_processed size_before size_after,
                            w5,
                            [.dimensionProbe, .tmpCreate, .runTool cmd,
                              .replace, .chmodRestore, .chownRestore]⟩
                      | .error e =>
                          ⟨.error e, c.stats, w4,
                            [.dimensionProbe, .tmpCreate, .runTool cmd,
                              .replace, .chmodRestore, .chownRestore]⟩
                else
                  ⟨.ok true, c.stats.add_processed size_before size_after,
                    { w2 with tmp := none },
                    [.dimensionProbe, .tmpCreate, .runTool cmd, .tmpUnlink]⟩
    { body with result := pyWrapMagick info.path body.result }

/-- Which backends the process environment can construct: pillowOk
models the PIL import succeeding, magickOk models the ImageMagick
availability probe of Converter2.__init__ succeeding. -/
structure FactoryEnv where
  pillowOk : Bool
  magickOk : Bool
deriving DecidableEq, Repr

/-- Failure message when the in-process library is unavailable
(Python ImportError text). -/
def pillowUnavailableMsg : String := "No module named PIL"

/-- Failure message of Converter2.__init__, converter2.py lines 56-63
(quotes around the tool names omitted). -/
def magickUnavailableMsg : String :=
  "ImageMagick convert and identify commands not found. " ++
  "Please install ImageMagick."

/-- Constructing the Pillow engine: Converter.__init__ stores the
configuration and fresh statistics; in an environment without the
imaging library the construction step fails with ImportError. -/
def Converter.create (env : FactoryEnv) (max_size quality : Nat)
    (test_mode : Bool) : Except PyErr Converter :=
  if env.pillowOk then .ok ⟨max_size, quality, test_mode, ConversionStats.init⟩
  else .error ⟨.importError, pillowUnavailableMsg⟩

/-- Constructing the ImageMagick engine: Converter2.__init__ raises
RuntimeError when the availability probe fails, else stores the
configuration and fresh statistics. -/
def Converter2.create (env : FactoryEnv) (max_size quality : Nat)
    (test_mode : Bool) : Except PyErr Converter2 :=
  if env.magickOk then .ok ⟨max_size, quality, test_mode, ConversionStats.init⟩
  else .error ⟨.runtimeError, magickUnavailableMsg⟩

/-- The value create_converter returns: one of the two engines. -/
inductive AnyConverter where
  | pillow (c : Converter)
  | magick (c : Converter2)
deriving DecidableEq, Repr

/-- Configured maximum dimension of either engine. -/
def AnyConverter.max_size : AnyConverter → Nat
  | .pillow c => c.max_size
  | .magick c => c.max_size

/-- Configured quality of either engine. -/
def AnyConverter.quality : AnyConverter → Nat
  | .pillow c => c.quality
  | .magick c => c.quality

/-- Configured test-mode flag of either engine. -/
def AnyConverter.test_mode : AnyConverter → Bool
  | .pillow c => c.test_mode
  | .magick c => c.test_mode

/-- converter_factory.py line 61 and 69: the recognized construction
failures, ImportError and RuntimeError. -/
def recognizedFactoryErr (e : PyErr) : Bool :=
  e.kind = ErrKind.importError ∨ e.kind = ErrKind.runtimeError

/-- The aggregate message of converter_factory.py lines 73-75. -/
def aggregateMsg (n1 m1 n2 m2 : String) : String :=
  "No converter implementation available. Errors:\n  - " ++ n1 ++ ": " ++
  m1 ++ "\n  - " ++ n2 ++ ": " ++ m2

/-- Name of the engine tried first, converter_factory.py lines 49-54. -/
def factoryFirstName (prefer_imagemagick : Bool) : String :=
  if prefer_imagemagick then "ImageMagick" else "Pillow"

/-- Name of the engine tried second. -/
def factorySecondName (prefer_imagemagick : Bool) : String :=
  if prefer_imagemagick then "Pillow" else "ImageMagick"

/-- Attempt one engine construction, as AnyConverter. -/
def factoryAttempt (env : FactoryEnv) (max_size quality : Nat)
    (test_mode : Bool) (magick : Bool) : Except PyErr AnyConverter :=
  if magick then (Converter2.create env max_size quality test_mode).map .magick
  else (Converter.create env max_size quality test_mode).map .pillow

/-- create_converter, converter_factory.py lines 16-75: try the
preferred engine, on a recognized failure try the other engine once
with the same configuration, and when both fail raise one RuntimeError
whose message lists both causes.  The second component records which
engines were attempted, in order. -/
def create_converter (env : FactoryEnv) (max_size quality : Nat)
    (test_mode prefer_imagemagick : Bool) :
    Except PyErr AnyConverter × List String :=
  match factoryAttempt env max_size quality test_mode prefer_imagemagick with
  | .ok c => (.ok c, [ factoryFirstName prefer_imagemagick])
  | .error e1 =>
      if recognizedFactoryErr e1 then
        match factoryAttempt env max_size quality test_mode
            (¬ prefer_imagemagick) with
        | .ok c => (.ok c, [ factoryFirstName prefer_imagemagick,
            factorySecondName prefer_imagemagick])
        | .error e2 =>
            if recognizedFactoryErr e2 then
              (.error ⟨.runtimeError,
                aggregateMsg ( factoryFirstName prefer_imagemagick) e1.msg
                  ( factorySecondName prefer_imagemagick) e2.msg⟩,
                [ factoryFirstName prefer_imagemagick,
                  factorySecondName prefer_imagemagick])
            else
              (.error e2, [ factoryFirstName prefer_imagemagick,
                factorySecondName prefer_imagemagick])
      else
        (.error e1, [ factoryFirstName prefer_imagemagick])

/-! Concrete fixtures used by witnesses and evaluations. -/

/-- A discovered JPEG file entry, as files.py find_images builds them:
owner and group are name strings, permissions are masked to 0o777. -/
def infoA : ImageFileInfo := ⟨"/data/a.jpg", 0o644, "alice", "users", 9000⟩

/-- Initial on-disk state of that file: content id 1, 9000 bytes,
mode 0o644, uid 1000, gid 100, no temporary file. -/
def worldA : World := ⟨1, 9000, 0o644, 1000, 100, none⟩

/-- An operating system in which every call the Pillow engine makes
succeeds; the file decodes as a 3000 by 2000 JPEG and re-encodes to
5000 bytes. -/
def envA : PillowEnv :=
  ⟨true, true, some ⟨"JPEG", 3000, 2000⟩, some ⟨7, 5000⟩, true, true,
    fun _ => some 1000, fun _ => some 100, true⟩

/-- An operating system in which every call the ImageMagick engine
makes succeeds; identify reports 3000 by 2000 and convert produces
5000 bytes. -/
def menvA : MagickEnv := ⟨true, true, some (3000, 2000), some ⟨7, 5000⟩, true, true, true⟩

/-- Pillow engine configured with max_size 1920, quality 85, normal mode. -/
def convA : Converter := ⟨1920, 85, false, ConversionStats.init⟩

/-- Pillow engine in test mode, same configuration. -/
def convT : Converter := ⟨1920, 85, true, ConversionStats.init⟩

/-- ImageMagick engine, max_size 1920, quality 85, normal mode. -/
def conv2A : Converter2 := ⟨1920, 85, false, ConversionStats.init⟩

/-- ImageMagick engine in test mode, same configuration. -/
def conv2T : Converter2 := ⟨1920, 85, true, ConversionStats.init⟩

/-- envA with read access denied. -/
def envNoRead : PillowEnv := { envA with canRead := false }

/-- envA with write access denied. -/
def envNoWrite : PillowEnv := { envA with canWrite := false }

/-- menvA with read access denied. -/
def menvNoRead : MagickEnv := { menvA with canRead := false }

/-- menvA with write access denied. -/
def menvNoWrite : MagickEnv := { menvA with canWrite := false }

/-- envA decoding a small 800 by 600 image. -/
def envSmall : PillowEnv := { envA with decode := some ⟨"JPEG", 800, 600⟩ }

/-- menvA identifying a small 800 by 600 image. -/
def menvSmall : MagickEnv := { menvA with identify := some (800, 600) }

/-- envA in which the encode into the temporary file fails. -/
def envEncodeFail : PillowEnv := { envA with encode := none }

/-- menvA in which the convert subprocess exits non-zero. -/
def menvConvertFail : MagickEnv := { menvA with runConvert := none }

/-- envA in which the replacement move fails. -/
def envMoveFail : PillowEnv := { envA with moveOk := false }

/-- menvA in which the replacement move fails. -/
def menvMoveFail : MagickEnv := { menvA with moveOk := false }

/-- envA in which os.chown is denied. -/
def envChownDenied : PillowEnv := { envA with chownOk := false }

/-- envA in which the stored owner name resolves to no uid. -/
def envOwnerUnknown : PillowEnv := { envA with pwByName := fun _ => none }

/-- C2: for an image whose longest side exceeds max_size, the claim
says the other side is scaled by max_size over the longest side and
rounded to the NEAREST integer.  The code (converter.py lines 295 and
298) truncates with int(), i.e. floor: at width 5, height 3,
max_size 3 the code yields height 1 while nearest rounding of 1.8
yields 2, so the claim as stated is false. -/
theorem c2_resize_rounding_counterexample :
    newDimensions 5 3 3 = (3, 1) ∧
    newDimensionsSpec 5 3 3 = (3, 2) ∧
    newDimensions 5 3 3 ≠ newDimensionsSpec 5 3 3 := by decide

/-- C2 (amended: the scaled side is truncated toward zero, not rounded
to nearest): whenever the longest side exceeds max_size, the computed
longest side equals max_size, neither dimension grows, the other side
is the floor of old-other times max_size over longest, and is within
one pixel of the exact scaled value; moreover a 3000 by 2000 image at
max_size 1920 maps to 1920 by 1280. -/
theorem c2_resize_dimensions :
    (∀ w h m : Nat, m < max w h → ResizeDimOk w h m) ∧
    newDimensions 3000 2000 1920 = (1920, 1280) := by
  constructor
  · intro w h m hm
    unfold ResizeDimOk
    by_cases hwh : w > h
    · have hw0 : 0 < w := lt_of_le_of_lt (Nat.zero_le h) hwh
      have hmw : m < w := by
        have : max w h = w := Nat.max_eq_left (le_of_lt hwh)
        omega
      have hb := natCast_div_bounds (h * m) w hw0
      have hds : newDimensions w h m = (m, h * m / w) := by
        unfold newDimensions
        rw [if_pos hwh]
      rw [hds]
      have hsec : h * m / w ≤ m := Nat.div_le_of_le_mul
        (Nat.mul_le_mul_right m (le_of_lt hwh))
      have hsec2 : h * m / w ≤ h := Nat.div_le_of_le_mul (by
        calc h * m ≤ h * w := Nat.mul_le_mul_left h (le_of_lt hmw)
          _ = w * h := Nat.mul_comm h w)
      refine ⟨Nat.max_eq_left hsec, le_of_lt hmw, hsec2,
        fun _ => ⟨rfl, rfl, hb.1, hb.2⟩, fun hc => absurd hwh hc⟩
    · have hh0 : 0 < h := by
        have hmx : max w h = h := Nat.max_eq_right (Nat.le_of_not_lt hwh)
        omega
      have hmh : m < h := by
        have : max w h = h := Nat.max_eq_right (Nat.le_of_not_lt hwh)
        omega
      have hb := natCast_div_bounds (w * m) h hh0
      have hds : newDimensions w h m = (w * m / h, m) := by
        unfold newDimensions
        rw [if_neg hwh]
      rw [hds]
      have hfst : w * m / h ≤ m := Nat.div_le_of_le_mul
        (Nat.mul_le_mul_right m (Nat.le_of_not_lt hwh))
      have hfst2 : w * m / h ≤ w := Nat.div_le_of_le_mul (by
        calc w * m ≤ w * h := Nat.mul_le_mul_left w (le_of_lt hmh)
          _ = h * w := Nat.mul_comm w h)
      refine ⟨Nat.max_eq_right hfst, hfst2, le_of_lt hmh,
        fun hc => absurd hc hwh, fun _ => ⟨rfl, rfl, hb.1, hb.2⟩⟩
  · decide

/-- Witness for C2 at the concrete scenario of the spec: 3000 by 2000
at max_size 1920. -/
theorem c2_resize_dimensions_witness :
    1920 < max 3000 2000 ∧ ResizeDimOk 3000 2000 1920 :=
  ⟨by decide, c2_resize_dimensions.1 3000 2000 1920 (by decide)⟩

/-- Derived statistics values as C7 states them. -/
def StatsDerivedOk (s : ConversionStats) : Prop :=
  (s.size_before = 0 → ConversionStats.compression_ratio s = 0) ∧
  (s.size_before ≠ 0 → ConversionStats.compression_ratio s =
    (1 - (s.size_after : ℚ) / (s.size_before : ℚ)) * 100) ∧
  ConversionStats.saved_bytes s = (s.size_before : Int) - (s.size_after : Int) ∧
  ConversionStats.total_files s = s.processed_files + s.skipped_files

/-- C7: for every statistics state, the compression ratio is 0 when
accumulated size-before is 0 and (1 - after/before) * 100 otherwise,
saved bytes equal before minus after, and total files equal processed
plus skipped. -/
theorem c7_derived_statistics : ∀ s : ConversionStats, StatsDerivedOk s := by
  intro s
  refine ⟨fun h => ?_, fun h => ?_, rfl, rfl⟩
  · simp [ConversionStats.compression_ratio, h]
  · simp [ConversionStats.compression_ratio, h]

/-- Witness for C7 on a zero-size-before state and a populated state. -/
theorem c7_derived_statistics_witness :
    StatsDerivedOk ⟨0, 2, 0, 0⟩ ∧ StatsDerivedOk ⟨2, 3, 1000, 600⟩ :=
  ⟨c7_derived_statistics ⟨0, 2, 0, 0⟩, c7_derived_statistics ⟨2, 3, 1000, 600⟩⟩

/-- Frame conditions of the two statistics mutators as C10 states
them, plus monotonicity of all four counters. -/
def StatsFrameOk (s : ConversionStats) (sb sa : Nat) : Prop :=
  (ConversionStats.add_skipped s).processed_files = s.processed_files ∧
  (ConversionStats.add_skipped s).size_before = s.size_before ∧
  (ConversionStats.add_skipped s).size_after = s.size_after ∧
  (ConversionStats.add_skipped s).skipped_files = s.skipped_files + 1 ∧
  (ConversionStats.add_processed s sb sa).skipped_files = s.skipped_files ∧
  (ConversionStats.add_processed s sb sa).processed_files = s.processed_files + 1 ∧
  (ConversionStats.add_processed s sb sa).size_before = s.size_before + sb ∧
  (ConversionStats.add_processed s sb sa).size_after = s.size_after + sa ∧
  s.processed_files ≤ (ConversionStats.add_skipped s).processed_files ∧
  s.skipped_files ≤ (ConversionStats.add_skipped s).skipped_files ∧
  s.size_before ≤ (ConversionStats.add_skipped s).size_before ∧
  s.size_after ≤ (ConversionStats.add_skipped s).size_after ∧
  s.processed_files ≤ (ConversionStats.add_processed s sb sa).processed_files ∧
  s.skipped_files ≤ (ConversionStats.add_processed s sb sa).skipped_files ∧
  s.size_before ≤ (ConversionStats.add_processed s sb sa).size_before ∧
  s.size_after ≤ (ConversionStats.add_processed s sb sa).size_after

/-- C10: add_skipped changes only the skipped count, add_processed
changes only the processed count and the two size accumulators, and
neither operation decreases any counter. -/
theorem c10_stats_frame : ∀ (s : ConversionStats) (sb sa : Nat),
    StatsFrameOk s sb sa := by
  intro s sb sa
  unfold StatsFrameOk ConversionStats.add_skipped ConversionStats.add_processed
  refine ⟨rfl, rfl, rfl, rfl, rfl, rfl, rfl, rfl, ?_, ?_, ?_, ?_, ?_, ?_, ?_, ?_⟩ <;>
    simp

/-- Outcome C3 requires of the Pillow engine on an in-bounds image:
returns False, only the skipped count changes, the file and world are
untouched, and the trace holds only the dimension probe (no resize,
no re-encode, no write, no temporary file). -/
def SkipOutcomePillow (c : Converter) (info : ImageFileInfo)
    (env : PillowEnv) (w : World) : Prop :=
  Converter.convert c info env w =
    ⟨Except.ok false, ConversionStats.add_skipped c.stats, w,
      [Event.dimensionProbe]⟩ ∧
  (Converter.convert c info env w).stats.skipped_files =
    c.stats.skipped_files + 1 ∧
  (Converter.convert c info env w).stats.processed_files =
    c.stats.processed_files ∧
  (Converter.convert c info env w).stats.size_before = c.stats.size_before ∧
  (Converter.convert c info env w).stats.size_after = c.stats.size_after

/-- Outcome C3 requires of the ImageMagick engine on an in-bounds
image. -/
def SkipOutcomeMagick (c : Converter2) (info : ImageFileInfo)
    (env : MagickEnv) (w : World) : Prop :=
  Converter2.convert c info env w =
    ⟨Except.ok false, ConversionStats.add_skipped c.stats, w,
      [Event.dimensionProbe]⟩ ∧
  (Converter2.convert c info env w).stats.skipped_files =
    c.stats.skipped_files + 1 ∧
  (Converter2.convert c info env w).stats.processed_files =
    c.stats.processed_files ∧
  (Converter2.convert c info env w).stats.size_before = c.stats.size_before ∧
  (Converter2.convert c info env w).stats.size_after = c.stats.size_after

/-- C3: on either engine, when the probed longest side is within
max_size, convert returns False, increments only the skipped count,
performs no resize, no re-encode and no file write, and creates no
temporary file. -/
theorem c3_skip_within_bounds :
    (∀ (c : Converter) (info : ImageFileInfo) (env : PillowEnv) (w : World)
      (im : ImageMeta),
      env.canRead = true → env.canWrite = true → env.decode = some im →
      max im.width im.height ≤ c.max_size →
      SkipOutcomePillow c info env w) ∧
    (∀ (c : Converter2) (info : ImageFileInfo) (env : MagickEnv) (w : World)
      (wd ht : Nat),
      env.canRead = true → env.canWrite = true →
      env.identify = some (wd, ht) → max wd ht ≤ c.max_size →
      SkipOutcomeMagick c info env w) := by
  constructor
  · intro c info env w im h1 h2 h3 h4
    have he : Converter.convert c info env w =
        ⟨Except.ok false, ConversionStats.add_skipped c.stats, w,
          [Event.dimensionProbe]⟩ := by
      simp [Converter.convert, h1, h2, h3, h4, pyWrapPillow]
    exact ⟨he, by rw [he]; rfl, by rw [he]; rfl, by rw [he]; rfl, by rw [he]; rfl⟩
  · intro c info env w wd ht h1 h2 h3 h4
    have he : Converter2.convert c info env w =
        ⟨Except.ok false, ConversionStats.add_skipped c.stats, w,
          [Event.dimensionProbe]⟩ := by
      simp [Converter2.convert, h1, h2, h3, h4, pyWrapMagick]
    exact ⟨he, by rw [he]; rfl, by rw [he]; rfl, by rw [he]; rfl, by rw [he]; rfl⟩

/-- Witness for C3: an 800 by 600 image against max_size 1920, on both
engines. -/
theorem c3_skip_within_bounds_witness :
    (envSmall.canRead = true ∧ envSmall.canWrite = true ∧
      envSmall.decode = some ⟨"JPEG", 800, 600⟩ ∧
      max 800 600 ≤ convA.max_size ∧
      SkipOutcomePillow convA infoA envSmall worldA) ∧
    (menvSmall.canRead = true ∧ menvSmall.canWrite = true ∧
      menvSmall.identify = some (800, 600) ∧
      max 800 600 ≤ conv2A.max_size ∧
      SkipOutcomeMagick conv2A infoA menvSmall worldA) :=
  ⟨⟨rfl, rfl, rfl, by decide,
      c3_skip_within_bounds.1 convA infoA envSmall worldA ⟨"JPEG", 800, 600⟩
        rfl rfl rfl (by decide)⟩,
    ⟨rfl, rfl, rfl, by decide,
      c3_skip_within_bounds.2 conv2A infoA menvSmall worldA 800 600
        rfl rfl rfl (by decide)⟩⟩

/-- What C8 requires of the Pillow engine: denied read access raises
the read PermissionError with nothing done, read access granted but
write denied raises the write PermissionError with nothing done, and
every trace either is empty or starts with the dimension probe. -/
def PrecheckPillow (c : Converter) (info : ImageFileInfo)
    (env : PillowEnv) (w : World) : Prop :=
  (env.canRead = false →
    Converter.convert c info env w =
      ⟨Except.error ⟨.permissionError,
        "No read access to file: " ++ info.path⟩, c.stats, w, []⟩) ∧
  (env.canRead = true → env.canWrite = false →
    Converter.convert c info env w =
      ⟨Except.error ⟨.permissionError,
        "No write access to file: " ++ info.path⟩, c.stats, w, []⟩) ∧
  ((Converter.convert c info env w).events = [] ∨
    (Converter.convert c info env w).events.head? = some Event.dimensionProbe)

/-- What C8 requires of the ImageMagick engine. -/
def PrecheckMagick (c : Converter2) (info : ImageFileInfo)
    (env : MagickEnv) (w : World) : Prop :=
  (env.canRead = false →
    Converter2.convert c info env w =
      ⟨Except.error ⟨.permissionError,
        "No read access to file: " ++ info.path⟩, c.stats, w, []⟩) ∧
  (env.canRead = true → env.canWrite = false →
    Converter2.convert c info env w =
      ⟨Except.error ⟨.permissionError,
        "No write access to file: " ++ info.path⟩, c.stats, w, []⟩) ∧
  ((Converter2.convert c info env w).events = [] ∨
    (Converter2.convert c info env w).events.head? = some Event.dimensionProbe)

/-- C8: on either engine the read check runs first, the write check
second, and a permission failure is raised before any probe, decode,
temporary file or statistics change (the outcome carries the starting
statistics and world and an empty trace); every run that gets past
the checks begins with the dimension probe. -/
theorem c8_precheck_ordering :
    (∀ (c : Converter) (info : ImageFileInfo) (env : PillowEnv) (w : World),
      PrecheckPillow c info env w) ∧
    (∀ (c : Converter2) (info : ImageFileInfo) (env : MagickEnv) (w : World),
      PrecheckMagick c info env w) := by
  constructor
  · intro c info env w
    obtain ⟨cr, cw, dec, enc, mv, ch, pw, gr, co⟩ := env
    refine ⟨fun h1 => ?_, fun h1 h2 => ?_, ?_⟩
    · cases h1
      simp [Converter.convert]
    · cases h1; cases h2
      simp [Converter.convert]
    · cases cr
      · simp [Converter.convert]
      · cases cw
        · simp [Converter.convert]
        · cases dec with
          | none => simp [Converter.convert, pyWrapPillow]
          | some im =>
            by_cases hle : max im.width im.height ≤ c.max_size <;>
              cases enc <;>
              cases hc : c.test_mode <;>
              cases mv <;>
              cases ch <;>
              simp [Converter.convert, pyWrapPillow, hle, hc]
  · intro c info env w
    obtain ⟨cr, cw, idf, rc, mv, ch, co⟩ := env
    refine ⟨fun h1 => ?_, fun h1 h2 => ?_, ?_⟩
    · cases h1
      simp [Converter2.convert]
    · cases h1; cases h2
      simp [Converter2.convert]
    · cases cr
      · simp [Converter2.convert]
      · cases cw
        · simp [Converter2.convert]
        · cases idf with
          | none => simp [Converter2.convert, pyWrapMagick]
          | some p =>
            obtain ⟨wd, ht⟩ := p
            by_cases hle : max wd ht ≤ c.max_size <;>
              cases rc <;>
              cases hc : c.test_mode <;>
              cases mv <;>
              cases ch <;>
              simp [Converter2.convert, pyWrapMagick, hle, hc] <;>
              first
              | rfl
              | (cases hmc : magickChownRestore ⟨true, true, some (wd, ht), _, _, _, co⟩ info _ <;>
                  simp [hmc])

/-- Witness for C8: denied read and denied write on both engines. -/
theorem c8_precheck_ordering_witness :
    PrecheckPillow convA infoA envNoRead worldA ∧
    PrecheckPillow convA infoA envNoWrite worldA ∧
    PrecheckMagick conv2A infoA menvNoRead worldA ∧
    PrecheckMagick conv2A infoA menvNoWrite worldA :=
  ⟨c8_precheck_ordering.1 convA infoA envNoRead worldA,
    c8_precheck_ordering.1 convA infoA envNoWrite worldA,
    c8_precheck_ordering.2 conv2A infoA menvNoRead worldA,
    c8_precheck_ordering.2 conv2A infoA menvNoWrite worldA⟩

/-- What C1 requires of a failed Pillow convert: an exception
propagates, the temporary file is gone, the original file content,
size and permission bits are the pre-call ones, and statistics are
untouched. -/
def FailureAtomicPillow (c : Converter) (info : ImageFileInfo)
    (env : PillowEnv) (w : World) : Prop :=
  (∃ e, (Converter.convert c info env w).result = Except.error e) ∧
  (Converter.convert c info env w).world.tmp = none ∧
  (Converter.convert c info env w).world.origContent = w.origContent ∧
  (Converter.convert c info env w).world.origSize = w.origSize ∧
  (Converter.convert c info env w).world.origPerms = w.origPerms ∧
  (Converter.convert c info env w).stats = c.stats

/-- What C1 requires of a failed ImageMagick convert. -/
def FailureAtomicMagick (c : Converter2) (info : ImageFileInfo)
    (env : MagickEnv) (w : World) : Prop :=
  (∃ e, (Converter2.convert c info env w).result = Except.error e) ∧
  (Converter2.convert c info env w).world.tmp = none ∧
  (Converter2.convert c info env w).world.origContent = w.origContent ∧
  (Converter2.convert c info env w).world.origSize = w.origSize ∧
  (Converter2.convert c info env w).world.origPerms = w.origPerms ∧
  (Converter2.convert c info env w).stats = c.stats

/-- C1: on either engine, if the encode step fails or the replacement
move fails, the temporary file is deleted, the failure propagates as
an exception, the original file is byte-identical to its pre-call
state, and the statistics are untouched. -/
theorem c1_failure_atomicity :
    (∀ (c : Converter) (info : ImageFileInfo) (env : PillowEnv) (w : World)
      (im : ImageMeta),
      env.canRead = true → env.canWrite = true → env.decode = some im →
      c.max_size < max im.width im.height →
      (env.encode = none ∨ (c.test_mode = false ∧ env.moveOk = false)) →
      FailureAtomicPillow c info env w) ∧
    (∀ (c : Converter2) (info : ImageFileInfo) (env : MagickEnv) (w : World)
      (wd ht : Nat),
      env.canRead = true → env.canWrite = true →
      env.identify = some (wd, ht) → c.max_size < max wd ht →
      (env.runConvert = none ∨ (c.test_mode = false ∧ env.moveOk = false)) →
      FailureAtomicMagick c info env w) := by
  constructor
  · intro c info env w im h1 h2 h3 h4 h5
    have h4n : ¬ max im.width im.height ≤ c.max_size := by omega
    unfold FailureAtomicPillow
    rcases h5 with h5 | ⟨h5a, h5b⟩
    · simp [Converter.convert, h1, h2, h3, h4n, h5, pyWrapPillow]
    · cases henc : env.encode with
      | none => simp [Converter.convert, h1, h2, h3, h4n, henc, pyWrapPillow]
      | some enc =>
          simp [Converter.convert, h1, h2, h3, h4n, henc, h5a, h5b,
            pyWrapPillow]
  · intro c info env w wd ht h1 h2 h3 h4 h5
    have h4n : ¬ max wd ht ≤ c.max_size := by omega
    unfold FailureAtomicMagick
    rcases h5 with h5 | ⟨h5a, h5b⟩
    · simp [Converter2.convert, h1, h2, h3, h4n, h5, pyWrapMagick]
    · cases hrc : env.runConvert with
      | none => simp [Converter2.convert, h1, h2, h3, h4n, hrc, pyWrapMagick]
      | some enc =>
          simp [Converter2.convert, h1, h2, h3, h4n, hrc, h5a, h5b,
            pyWrapMagick]

/-- Witness for C1: a 3000 by 2000 image, max_size 1920, with the
encode failing on the Pillow engine and the replacement move failing
on the ImageMagick engine. -/
theorem c1_failure_atomicity_witness :
    FailureAtomicPillow convA infoA envEncodeFail worldA ∧
    FailureAtomicPillow convA infoA envMoveFail worldA ∧
    FailureAtomicMagick conv2A infoA menvConvertFail worldA ∧
    FailureAtomicMagick conv2A infoA menvMoveFail worldA :=
  ⟨c1_failure_atomicity.1 convA infoA envEncodeFail worldA ⟨"JPEG", 3000, 2000⟩
      rfl rfl rfl (by decide) (Or.inl rfl),
    c1_failure_atomicity.1 convA infoA envMoveFail worldA ⟨"JPEG", 3000, 2000⟩
      rfl rfl rfl (by decide) (Or.inr ⟨rfl, rfl⟩),
    c1_failure_atomicity.2 conv2A infoA menvConvertFail worldA 3000 2000
      rfl rfl rfl (by decide) (Or.inl rfl),
    c1_failure_atomicity.2 conv2A infoA menvMoveFail worldA 3000 2000
      rfl rfl rfl (by decide) (Or.inr ⟨rfl, rfl⟩)⟩

/-- C4: the claim says both engines restore the permission bits and
swallow every ownership-restoration failure, returning True.  The
Pillow engine does (shown here under a denied chown and under an
unknown owner name), but the ImageMagick engine reads image_info.uid
and image_info.gid (converter2.py line 289), attributes ImageFileInfo
does not define, so its ownership step raises AttributeError, which
its except clause (PermissionError only) does not catch: convert
raises instead of returning True, after the file was already
replaced, and the statistics are never updated. -/
theorem c4_ownership_restoration_eval :
    (Converter.convert convA infoA envChownDenied worldA).result =
      Except.ok true ∧
    (Converter.convert convA infoA envChownDenied worldA).world.origPerms =
      infoA.permissions ∧
    (Converter.convert convA infoA envChownDenied worldA).world.origUid =
      worldA.origUid ∧
    (Converter.convert convA infoA envOwnerUnknown worldA).result =
      Except.ok true ∧
    (Converter.convert convA infoA envOwnerUnknown worldA).world.origPerms =
      infoA.permissions ∧
    (Converter2.convert conv2A infoA menvA worldA).result =
      Except.error ⟨.attributeError,
        "Failed to convert image /data/a.jpg: " ++
        "ImageFileInfo object has no attribute uid"⟩ ∧
    (Converter2.convert conv2A infoA menvA worldA).world.origContent = 7 ∧
    (Converter2.convert conv2A infoA menvA worldA).stats = conv2A.stats := by
  exact ⟨rfl, rfl, rfl, rfl, rfl, rfl, rfl, rfl⟩

/-- C9: in test mode both engines re-encode into a temporary file,
delete it, return True, leave the original file untouched and
accumulate the before and after sizes.  But the claim also says these
are the same values a non-test-mode run would accumulate, and for the
ImageMagick engine that is false: its non-test-mode run raises
AttributeError at the ownership step (see C4) and accumulates
nothing.  The Pillow engine does match its non-test-mode run. -/
theorem c9_test_mode_eval :
    (Converter.convert convT infoA envA worldA).result = Except.ok true ∧
    (Converter.convert convT infoA envA worldA).world = worldA ∧
    (Converter.convert convT infoA envA worldA).stats =
      ConversionStats.add_processed ConversionStats.init 9000 5000 ∧
    (Converter.convert convT infoA envA worldA).events =
      [Event.dimensionProbe, Event.tmpCreate,
        Event.encodePillow (1920, 1280) (SaveSpec.jpeg 85), Event.tmpUnlink] ∧
    (Converter.convert convA infoA envA worldA).stats =
      (Converter.convert convT infoA envA worldA).stats ∧
    (Converter2.convert conv2T infoA menvA worldA).result = Except.ok true ∧
    (Converter2.convert conv2T infoA menvA worldA).world = worldA ∧
    (Converter2.convert conv2T infoA menvA worldA).stats =
      ConversionStats.add_processed ConversionStats.init 9000 5000 ∧
    (∃ e, (Converter2.convert conv2A infoA menvA worldA).result =
      Except.error e) ∧
    (Converter2.convert conv2A infoA menvA worldA).stats =
      ConversionStats.init := by
  refine ⟨rfl, rfl, rfl, rfl, rfl, rfl, rfl, rfl, ⟨_, rfl⟩, rfl⟩

/-- How one convert call may change the statistics, as C5 amends it:
a call returning True adds exactly one processed file, a call
returning False adds exactly one skipped file and nothing else, a
call that raises changes nothing, no counter ever decreases, and
total files always equals processed plus skipped. -/
def StatsStepOk (before : ConversionStats) (o : ConvOutcome) : Prop :=
  (o.result = Except.ok true →
    o.stats.processed_files = before.processed_files + 1 ∧
    o.stats.skipped_files = before.skipped_files) ∧
  (o.result = Except.ok false →
    o.stats.skipped_files = before.skipped_files + 1 ∧
    o.stats.processed_files = before.processed_files ∧
    o.stats.size_before = before.size_before ∧
    o.stats.size_after = before.size_after) ∧
  ((∃ e, o.result = Except.error e) → o.stats = before) ∧
  before.processed_files ≤ o.stats.processed_files ∧
  before.skipped_files ≤ o.stats.skipped_files ∧
  before.size_before ≤ o.stats.size_before ∧
  before.size_after ≤ o.stats.size_after ∧
  ConversionStats.total_files o.stats =
    o.stats.processed_files + o.stats.skipped_files

/-- C5 (amended: a call that raises an exception increments neither
counter; only calls that return normally increment exactly one):
every convert call on either engine either adds one processed file,
adds one skipped file, or raises and leaves the statistics untouched;
counters never decrease and total files equals processed plus
skipped. -/
theorem c5_statistics_lifecycle :
    (∀ (c : Converter) (info : ImageFileInfo) (env : PillowEnv) (w : World),
      StatsStepOk c.stats (Converter.convert c info env w)) ∧
    (∀ (c : Converter2) (info : ImageFileInfo) (env : MagickEnv) (w : World),
      StatsStepOk c.stats (Converter2.convert c info env w)) := by
  constructor
  · intro c info env w
    obtain ⟨cr, cw, dec, enc, mv, ch, pw, gr, co⟩ := env
    unfold StatsStepOk
    cases cr
    · simp [Converter.convert, ConversionStats.total_files]
    · cases cw
      · simp [Converter.convert, ConversionStats.total_files]
      · cases dec with
        | none =>
            simp [Converter.convert, pyWrapPillow, ConversionStats.total_files]
        | some im =>
            by_cases hle : max im.width im.height ≤ c.max_size <;>
              cases enc <;>
              cases hc : c.test_mode <;>
              cases mv <;>
              cases ch <;>
              simp [Converter.convert, pyWrapPillow, hle, hc,
                ConversionStats.add_skipped, ConversionStats.add_processed,
                ConversionStats.total_files]
  · intro c info env w
    obtain ⟨cr, cw, idf, rc, mv, ch, co⟩ := env
    unfold StatsStepOk
    cases cr
    · simp [Converter2.convert, ConversionStats.total_files]
    · cases cw
      · simp [Converter2.convert, ConversionStats.total_files]
      · cases idf with
        | none =>
            simp [Converter2.convert, pyWrapMagick, ConversionStats.total_files]
        | some p =>
            obtain ⟨wd, ht⟩ := p
            by_cases hle : max wd ht ≤ c.max_size <;>
              cases rc <;>
              cases hc : c.test_mode <;>
              cases mv <;>
              cases ch <;>
              simp [Converter2.convert, pyWrapMagick, hle, hc,
                ConversionStats.add_skipped, ConversionStats.add_processed,
                ConversionStats.total_files] <;>
              first
              | rfl
              | (cases hmc : magickChownRestore ⟨true, true, some (wd, ht), _, _, _, co⟩ info _ <;>
                  simp [hmc, ConversionStats.add_processed,
                    ConversionStats.total_files] <;>
                  (split <;> simp))

/-- C5 counterexample: a convert call that raises (here: read access
denied) increments neither the processed nor the skipped count, so it
is not true that every call increments exactly one of them. -/
theorem c5_erroring_call_counterexample :
    (∃ e, (Converter.convert convA infoA envNoRead worldA).result =
      Except.error e) ∧
    (Converter.convert convA infoA envNoRead worldA).stats.processed_files =
      convA.stats.processed_files ∧
    (Converter.convert convA infoA envNoRead worldA).stats.skipped_files =
      convA.stats.skipped_files :=
  ⟨⟨⟨.permissionError, "No read access to file: /data/a.jpg"⟩, rfl⟩, rfl, rfl⟩

/-- Witness for C5 on concrete processed, skipped and erroring calls
of both engines. -/
theorem c5_statistics_lifecycle_witness :
    StatsStepOk convA.stats (Converter.convert convA infoA envA worldA) ∧
    StatsStepOk convA.stats (Converter.convert convA infoA envSmall worldA) ∧
    StatsStepOk convA.stats (Converter.convert convA infoA envEncodeFail worldA) ∧
    StatsStepOk conv2A.stats (Converter2.convert conv2A infoA menvA worldA) ∧
    StatsStepOk conv2T.stats (Converter2.convert conv2T infoA menvA worldA) :=
  ⟨c5_statistics_lifecycle.1 convA infoA envA worldA,
    c5_statistics_lifecycle.1 convA infoA envSmall worldA,
    c5_statistics_lifecycle.1 convA infoA envEncodeFail worldA,
    c5_statistics_lifecycle.2 conv2A infoA menvA worldA,
    c5_statistics_lifecycle.2 conv2T infoA menvA worldA⟩

/-- What C6 requires of the factory: the preferred engine is attempted
first, each engine is attempted at most once, a success returns that
engine configured with the given max_size, quality and test_mode, a
recognized first failure leads to exactly one attempt of the other
engine with the same configuration, and a double failure raises one
RuntimeError whose message names both causes. -/
def FactoryOk (env : FactoryEnv) (ms q : Nat) (tm pref : Bool) : Prop :=
  ((create_converter env ms q tm pref).2 = [ factoryFirstName pref] ∨
    (create_converter env ms q tm pref).2 =
      [ factoryFirstName pref, factorySecondName pref]) ∧
  factoryFirstName pref ≠ factorySecondName pref ∧
  (pref = false → env.pillowOk = true →
    create_converter env ms q tm pref =
      (Except.ok (AnyConverter.pillow ⟨ms, q, tm, ConversionStats.init⟩),
        ["Pillow"])) ∧
  (pref = false → env.pillowOk = false → env.magickOk = true →
    create_converter env ms q tm pref =
      (Except.ok (AnyConverter.magick ⟨ms, q, tm, ConversionStats.init⟩),
        ["Pillow", "ImageMagick"])) ∧
  (pref = true → env.magickOk = true →
    create_converter env ms q tm pref =
      (Except.ok (AnyConverter.magick ⟨ms, q, tm, ConversionStats.init⟩),
        ["ImageMagick"])) ∧
  (pref = true → env.magickOk = false → env.pillowOk = true →
    create_converter env ms q tm pref =
      (Except.ok (AnyConverter.pillow ⟨ms, q, tm, ConversionStats.init⟩),
        ["ImageMagick", "Pillow"])) ∧
  (env.pillowOk = false → env.magickOk = false →
    (create_converter env ms q tm pref).1 =
      Except.error ⟨.runtimeError,
        aggregateMsg ( factoryFirstName pref)
          (if pref then magickUnavailableMsg else pillowUnavailableMsg)
          ( factorySecondName pref)
          (if pref then pillowUnavailableMsg else magickUnavailableMsg)⟩)

/-- C6: create_converter attempts the preferred engine first, falls
back to the other engine exactly once with the same configuration on
a recognized failure, and when both engines fail raises one aggregate
RuntimeError naming both failure causes. -/
theorem c6_factory_fallback :
    ∀ (env : FactoryEnv) (ms q : Nat) (tm pref : Bool),
      FactoryOk env ms q tm pref := by
  intro env ms q tm pref
  obtain ⟨po, mo⟩ := env
  unfold FactoryOk
  cases pref <;> cases po <;> cases mo <;>
    refine ⟨?_, by decide, ?_, ?_, ?_, ?_, ?_⟩ <;>
      simp [create_converter, factoryAttempt, Converter.create,
        Converter2.create, factoryFirstName, factorySecondName,
        recognizedFactoryErr, Except.map]

/-- Witness for C6: both engines unavailable with default preference,
and the fallback case with only ImageMagick available. -/
theorem c6_factory_fallback_witness :
    FactoryOk ⟨false, false⟩ 1920 85 false false ∧
    FactoryOk ⟨false, true⟩ 1920 85 false false :=
  ⟨c6_factory_fallback ⟨false, false⟩ 1920 85 false false,
    c6_factory_fallback ⟨false, true⟩ 1920 85 false false⟩
